import Mathlib

/-!
Shallow embedding of the Meta-Backend-Capstone-Project restaurant backend
(Django): the data model of `LittleLemonAPI/models.py` and
`restaurant/models.py`, and the request handlers of
`LittleLemonAPI/views.py` and `restaurant/views.py` that the claims are
about.  Database tables become lists of rows, a request handler becomes a
function from the database state (plus the request data) to the new state
and an HTTP response.  Fixed-point `DecimalField(decimal_places=2)` prices
are modelled exactly as integer counts of hundredths (cents);
auto-increment primary keys are modelled by explicit counters in the
state.
-/

namespace LittleLemon

/-- A row of `django.contrib.auth.models.User`: primary key, the
`is_superuser` flag and the names of the groups the user belongs to
(`user.groups`). -/
structure User where
  id : Nat
  is_superuser : Bool
  groups : List String
deriving DecidableEq

/-- A row of `LittleLemonAPI.models.MenuItem`. -/
structure MenuItem where
  id : Nat
  title : String
  price : Int
  featured : Bool
  categoryId : Nat
deriving DecidableEq

/-- A row of `LittleLemonAPI.models.Cart`.  `Cart.Meta.unique_together`
declares (menuitem, user) unique; the constraint lives in the database and
surfaces as an insert failure, modelled in `tryCreateCartRow`. -/
structure Cart where
  id : Nat
  userId : Nat
  menuitemId : Nat
  quantity : Int
  unit_price : Int
  price : Int
deriving DecidableEq

/-- A row of `LittleLemonAPI.models.Order`: `delivery_crew` is a nullable
foreign key to User, `status` a boolean (false = not delivered), `date` a
DateField modelled as a day number. -/
structure Order where
  id : Nat
  userId : Nat
  delivery_crew : Option Nat
  status : Bool
  total : Int
  date : Nat
deriving DecidableEq

/-- A row of `LittleLemonAPI.models.OrderItem`: order and menuitem foreign
keys and a quantity.  The model has no price fields (they are commented
out in models.py). -/
structure OrderItem where
  id : Nat
  orderId : Nat
  menuitemId : Nat
  quantity : Int
deriving DecidableEq

/-- A row of `restaurant.models.Booking`. -/
structure Booking where
  id : Nat
  first_name : String
  reservation_date : String
  reservation_slot : Nat
deriving DecidableEq

/-- The database state: one list of rows per table, plus the
auto-increment counters for the tables the handlers insert into. -/
structure DB where
  users : List User
  menuitems : List MenuItem
  carts : List Cart
  orders : List Order
  orderItems : List OrderItem
  bookings : List Booking
  nextCartId : Nat
  nextOrderId : Nat
  nextOrderItemId : Nat
  nextBookingId : Nat
deriving DecidableEq

/-- An HTTP response: status code and the `message` field of the JSON
body (empty when the handler returns a bare response). -/
structure HttpResp where
  status : Nat
  message : String
deriving DecidableEq

/-- The bare `Cart.objects.create(...)` insert in
`CartOperationsView.post` (views.py line 220).  It returns `none` exactly
when the insert raises: either the (user, menuitem) uniqueness constraint
of `Cart.Meta` is violated because a row for the pair already exists, or
the database fails for any other reason (malformed quantity, etc), which the bare `except:` of the view never distinguishes; the latter is modelled by
the `dbFault` flag. -/
def tryCreateCartRow (db : DB) (row : Cart) (dbFault : Bool) : Option DB :=
  if dbFault then none
  else if db.carts.any (fun c => c.userId == row.userId && c.menuitemId == row.menuitemId) then
    none
  else
    some { db with carts := db.carts ++ [row], nextCartId := db.nextCartId + 1 }

/-- `CartOperationsView.post` (views.py lines 212-223): look the menu item
up (404 when absent), compute price = quantity * unit price, try the
insert, and answer 409 "Item already in cart" whenever the insert raises,
201 otherwise. -/
def addToCart (db : DB) (uid menuitemId : Nat) (quantity : Int) (dbFault : Bool) :
    DB × HttpResp :=
  match db.menuitems.find? (fun m => m.id == menuitemId) with
  | none => (db, ⟨404, ""⟩)
  | some item =>
    let price := quantity * item.price
    match tryCreateCartRow db ⟨db.nextCartId, uid, menuitemId, quantity, item.price, price⟩ dbFault with
    | none => (db, ⟨409, "Item already in cart"⟩)
    | some db1 => (db1, ⟨201, "Item added to cart!"⟩)

/-- `OrderOperationsView.get_queryset` (views.py lines 243-250): managers
and superusers get every order, delivery crew the orders assigned to
them, everyone else their own orders. -/
def listOrders (db : DB) (u : User) : List Order :=
  if u.groups.contains "Managers" || u.is_superuser then
    db.orders
  else if u.groups.contains "Delivery crew" then
    db.orders.filter (fun o => o.delivery_crew == some u.id)
  else
    db.orders.filter (fun o => o.userId == u.id)

/-- The loop of `OrderOperationsView.post` (views.py lines 267-270): for
each cart row, `get_object_or_404(MenuItem, ...)` then
`OrderItem.objects.create(...)`.  A missing menu item aborts the loop
(the 404 propagates), returning `false` together with the state reached
so far — the rows already inserted stay. -/
def createOrderLines (oid : Nat) : DB → List Cart → DB × Bool
  | db, [] => (db, true)
  | db, c :: rest =>
    match db.menuitems.find? (fun m => m.id == c.menuitemId) with
    | none => (db, false)
    | some m =>
      createOrderLines oid
        { db with
            orderItems := db.orderItems ++ [⟨db.nextOrderItemId, oid, m.id, c.quantity⟩],
            nextOrderItemId := db.nextOrderItemId + 1 }
        rest

/-- `OrderOperationsView.post` (views.py lines 260-272): read the cart of the user, 400 when empty; total is the sum of the `price` column of the cart rows
(the last column of `values_list()`); create the Order row, then the
order lines, then clear the cart.  There is no transaction: when the
line-creating loop aborts, the Order row already created and the cart are
left as they are and a 404 is returned. -/
def placeOrder (db : DB) (uid today : Nat) : DB × HttpResp :=
  let cart := db.carts.filter (fun c => c.userId == uid)
  if cart.length == 0 then
    (db, ⟨400, ""⟩)
  else
    let total := (cart.map (fun c => c.price)).sum
    let order : Order := ⟨db.nextOrderId, uid, none, false, total, today⟩
    let db1 := { db with orders := db.orders ++ [order], nextOrderId := db.nextOrderId + 1 }
    match createOrderLines order.id db1 cart with
    | (db2, false) => (db2, ⟨404, ""⟩)
    | (db2, true) =>
      let db3 := { db2 with carts := db2.carts.filter (fun c => !(c.userId == uid)) }
      (db3, ⟨201, "Your order has been placed! Your order number is " ++ toString order.id⟩)

/-- `SingleOrderView.patch` (views.py lines 297-301):
`Order.objects.get(pk)` (an unhandled exception when absent, modelled as
`none`), flip `status`, save (an UPDATE of the row with that pk). -/
def toggleStatus (db : DB) (oid : Nat) : Option (DB × HttpResp) :=
  match db.orders.find? (fun o => o.id == oid) with
  | none => none
  | some o =>
    let newStatus := !o.status
    some
      ({ db with
           orders := db.orders.map (fun p => if p.id == oid then { p with status := newStatus } else p) },
       ⟨200, "Status of order changed"⟩)

/-- `SingleOrderView.put` (views.py lines 304-311): 404 when the order or
the target user is absent; otherwise set `delivery_crew` to the target
user — no check of the group membership of the target — and save. -/
def assignDeliveryCrew (db : DB) (oid crewId : Nat) : DB × HttpResp :=
  match db.orders.find? (fun o => o.id == oid) with
  | none => (db, ⟨404, ""⟩)
  | some _ =>
    match db.users.find? (fun u => u.id == crewId) with
    | none => (db, ⟨404, ""⟩)
    | some crew =>
      ({ db with
           orders := db.orders.map
             (fun o => if o.id == oid then { o with delivery_crew := some crew.id } else o) },
       ⟨201, "was assigned"⟩)

/-- `SingleOrderView.delete` (views.py lines 314-317):
`Order.objects.get(pk)` (an unhandled exception when absent, modelled as
`none`), then `order.delete()`, which cascades to the OrderItem rows
referencing it (`OrderItem.order` has `on_delete=models.CASCADE`). -/
def deleteOrder (db : DB) (oid : Nat) : Option (DB × HttpResp) :=
  match db.orders.find? (fun o => o.id == oid) with
  | none => none
  | some _ =>
    some
      ({ db with
           orders := db.orders.filter (fun o => !(o.id == oid)),
           orderItems := db.orderItems.filter (fun i => !(i.orderId == oid)) },
       ⟨200, "Order was deleted"⟩)

/-- The response of the `bookings` view of `restaurant/views.py`: either
the error body returned on a duplicate slot, or the list of bookings for
the requested date. -/
inductive BookResp where
  | conflictError : BookResp
  | bookingList : List Booking → BookResp
deriving DecidableEq

/-- The POST branch of `restaurant.views.bookings` (views.py lines
51-84): check whether any booking with the same reservation date and
slot exists; when none does, insert the new booking and fall through to
returning the bookings of the `date` GET parameter; otherwise answer the
error body and leave the table alone. -/
def bookingsPost (db : DB) (first_name reservation_date : String) (slot : Nat)
    (dateParam : String) : DB × BookResp :=
  let exist :=
    !((db.bookings.filter (fun b => b.reservation_date == reservation_date)).filter
      (fun b => b.reservation_slot == slot)).isEmpty
  if exist == false then
    let db1 :=
      { db with
          bookings := db.bookings ++ [⟨db.nextBookingId, first_name, reservation_date, slot⟩],
          nextBookingId := db.nextBookingId + 1 }
    (db1, .bookingList (db1.bookings.filter (fun b => b.reservation_date == dateParam)))
  else
    (db, .conflictError)

/-! ## Theorems -/

/-- C2: a user whose cart is empty gets a 400 Bad Request from place-order
and the database — orders, order items and carts alike — is unchanged. -/
theorem placeOrder_empty_cart (db : DB) (uid today : Nat)
    (h : db.carts.filter (fun c => c.userId == uid) = []) :
    placeOrder db uid today = (db, ⟨400, ""⟩) := by
  unfold placeOrder
  simp [h]

/-- Witness for C2 at a concrete state: user 7 has no cart rows. -/
theorem placeOrder_empty_cart_witness :
    (⟨[], [], [], [], [], [], 1, 1, 1, 1⟩ : DB).carts.filter (fun c => c.userId == 7) = [] ∧
    placeOrder ⟨[], [], [], [], [], [], 1, 1, 1, 1⟩ 7 100 =
      (⟨[], [], [], [], [], [], 1, 1, 1, 1⟩, ⟨400, ""⟩) :=
  ⟨by decide, placeOrder_empty_cart _ 7 100 (by decide)⟩

/-- C3: when the menu item exists and a cart row for (user, menuitem)
already exists, add-to-cart answers 409 Conflict and leaves the database
unchanged, whatever the fault flag of the insert. -/
theorem addToCart_duplicate_conflict (db : DB) (uid mid : Nat) (q : Int) (dbFault : Bool)
    (hm : (db.menuitems.find? (fun m => m.id == mid)).isSome = true)
    (hc : db.carts.any (fun c => c.userId == uid && c.menuitemId == mid) = true) :
    addToCart db uid mid q dbFault = (db, ⟨409, "Item already in cart"⟩) := by
  obtain ⟨item, hitem⟩ := Option.isSome_iff_exists.mp hm
  unfold addToCart tryCreateCartRow
  rw [hitem]
  cases dbFault <;> simp [hc]

/-- A concrete state for the C3 witness: menu item 1 exists and user 5
already has it in the cart (the state produced by a first successful
add-to-cart from `dbC3pre`). -/
def dbC3 : DB :=
  ⟨[], [⟨1, "Pasta", 10, false, 1⟩], [⟨1, 5, 1, 2, 10, 20⟩], [], [], [], 2, 1, 1, 1⟩

/-- The state before the first add-to-cart of the C3 witness. -/
def dbC3pre : DB :=
  ⟨[], [⟨1, "Pasta", 10, false, 1⟩], [], [], [], [], 1, 1, 1, 1⟩

/-- Witness for C3: adding (user 5, menu item 1) a second time yields 409
and the cart still has exactly one row for the pair; the first add (from
`dbC3pre`) succeeded with 201. -/
theorem addToCart_duplicate_conflict_witness :
    (dbC3.menuitems.find? (fun m => m.id == 1)).isSome = true ∧
    dbC3.carts.any (fun c => c.userId == 5 && c.menuitemId == 1) = true ∧
    addToCart dbC3 5 1 3 false = (dbC3, ⟨409, "Item already in cart"⟩) ∧
    (dbC3.carts.filter (fun c => c.userId == 5 && c.menuitemId == 1)).length = 1 ∧
    addToCart dbC3pre 5 1 2 false = (dbC3, ⟨201, "Item added to cart!"⟩) :=
  ⟨by decide, by decide,
   addToCart_duplicate_conflict dbC3 5 1 3 false (by decide) (by decide),
   by decide, by rfl⟩

/-- C10: given the menu item exists, any failure of the cart-row insert —
also a plain database fault that is not a uniqueness violation — gets the
one response 409 with message "Item already in cart"; the only other
response the handler produces is the 201 success. -/
theorem addToCart_failure_always_conflict (db : DB) (uid mid : Nat) (q : Int)
    (hm : (db.menuitems.find? (fun m => m.id == mid)).isSome = true) :
    addToCart db uid mid q true = (db, ⟨409, "Item already in cart"⟩) ∧
    ∀ dbFault : Bool, (addToCart db uid mid q dbFault).2.status ≠ 201 →
      (addToCart db uid mid q dbFault).2 = ⟨409, "Item already in cart"⟩ := by
  obtain ⟨item, hitem⟩ := Option.isSome_iff_exists.mp hm
  constructor
  · unfold addToCart tryCreateCartRow
    rw [hitem]
    simp
  · intro f hf
    unfold addToCart tryCreateCartRow at hf ⊢
    rw [hitem] at hf ⊢
    cases f
    · by_cases hd : db.carts.any (fun c => c.userId == uid && c.menuitemId == mid) = true
      · simp [hd]
      · simp [hd] at hf
    · simp

/-- A concrete state for the C10 witness: menu item 1 exists and user 5
has an empty cart, so no uniqueness violation is possible. -/
def dbC10 : DB :=
  ⟨[], [⟨1, "Pasta", 10, false, 1⟩], [], [], [], [], 1, 1, 1, 1⟩

/-- Witness for C10: with an empty cart a faulty insert still yields 409
"Item already in cart". -/
theorem addToCart_failure_always_conflict_witness :
    (dbC10.menuitems.find? (fun m => m.id == 1)).isSome = true ∧
    addToCart dbC10 5 1 2 true = (dbC10, ⟨409, "Item already in cart"⟩) :=
  ⟨by decide, (addToCart_failure_always_conflict dbC10 5 1 2 (by decide)).1⟩

/-- A concrete state for C6: user 7 has one cart row whose menu item (id
5) does not exist in the MenuItem table. -/
def dbC6 : DB :=
  ⟨[], [], [⟨1, 7, 5, 2, 3, 6⟩], [], [], [], 2, 1, 1, 1⟩

/-- C6: place-order is not atomic.  At `dbC6` the handler creates the
Order row, then aborts with 404 when the menu item of the cart row is looked
up — and the half-created Order row stays while the cart is not
cleared. -/
theorem placeOrder_midway_failure_leaves_order :
    (placeOrder dbC6 7 100).2 = ⟨404, ""⟩ ∧
    (placeOrder dbC6 7 100).1.orders = [⟨1, 7, none, false, 6, 100⟩] ∧
    (placeOrder dbC6 7 100).1.orderItems = [] ∧
    (placeOrder dbC6 7 100).1.carts = dbC6.carts :=
  ⟨rfl, rfl, rfl, rfl⟩

/-- C7: create-booking inserts exactly when no booking with the same
(reservation_date, reservation_slot) pair exists; when one exists it
answers the conflict error body and the booking table is unchanged. -/
theorem bookingsPost_spec (db : DB) (fn d : String) (slot : Nat) (dp : String) :
    ((¬ ∃ b ∈ db.bookings, b.reservation_date = d ∧ b.reservation_slot = slot) →
      bookingsPost db fn d slot dp =
        ({ db with
             bookings := db.bookings ++ [⟨db.nextBookingId, fn, d, slot⟩],
             nextBookingId := db.nextBookingId + 1 },
         BookResp.bookingList ((db.bookings ++ [(⟨db.nextBookingId, fn, d, slot⟩ : Booking)]).filter
           (fun b => b.reservation_date == dp)))) ∧
    ((∃ b ∈ db.bookings, b.reservation_date = d ∧ b.reservation_slot = slot) →
      bookingsPost db fn d slot dp = (db, .conflictError)) := by
  have hiff :
      ((db.bookings.filter (fun b => b.reservation_date == d)).filter
        (fun b => b.reservation_slot == slot)).isEmpty = true ↔
      ¬ ∃ b ∈ db.bookings, b.reservation_date = d ∧ b.reservation_slot = slot := by
    rw [List.isEmpty_iff, List.filter_eq_nil_iff]
    simp [List.mem_filter]
  constructor
  · intro h
    unfold bookingsPost
    simp only [hiff.mpr h]
    simp
  · intro h
    unfold bookingsPost
    have hne : ((db.bookings.filter (fun b => b.reservation_date == d)).filter
        (fun b => b.reservation_slot == slot)).isEmpty = false := by
      cases hE : ((db.bookings.filter (fun b => b.reservation_date == d)).filter
          (fun b => b.reservation_slot == slot)).isEmpty
      · rfl
      · exact absurd h (hiff.mp hE)
    simp only [hne]
    simp

/-- A concrete state for the C7 witness: one booking for date "2026-10-12"
slot 3. -/
def dbC7 : DB :=
  ⟨[], [], [], [], [], [⟨1, "Ana", "2026-10-12", 3⟩], 1, 1, 1, 2⟩

/-- Witness for C7 at a concrete state: inserting into a free (date, slot)
succeeds and appends the row; inserting into the taken one answers the
conflict body and changes nothing. -/
theorem bookingsPost_spec_witness :
    ((¬ ∃ b ∈ dbC7.bookings, b.reservation_date = "2026-10-12" ∧ b.reservation_slot = 4) ∧
      bookingsPost dbC7 "Bob" "2026-10-12" 4 "2026-10-12" =
        ({ dbC7 with
             bookings := dbC7.bookings ++ [⟨2, "Bob", "2026-10-12", 4⟩],
             nextBookingId := 3 },
         BookResp.bookingList [⟨1, "Ana", "2026-10-12", 3⟩, ⟨2, "Bob", "2026-10-12", 4⟩])) ∧
    ((∃ b ∈ dbC7.bookings, b.reservation_date = "2026-10-12" ∧ b.reservation_slot = 3) ∧
      bookingsPost dbC7 "Bob" "2026-10-12" 3 "2026-10-12" = (dbC7, .conflictError)) := by
  refine ⟨⟨by decide, ?_⟩, ⟨by decide, ?_⟩⟩
  · have h := (bookingsPost_spec dbC7 "Bob" "2026-10-12" 4 "2026-10-12").1 (by decide)
    rw [h]
    decide
  · exact (bookingsPost_spec dbC7 "Bob" "2026-10-12" 3 "2026-10-12").2 (by decide)

/-- C4: list-orders is role-scoped.  A manager or superuser gets every
order; a delivery-crew member who is not a manager or superuser gets
exactly the orders assigned to them; any other authenticated user gets
exactly their own orders. -/
theorem listOrders_role_scoped (db : DB) (u : User) :
    ((u.groups.contains "Managers" = true ∨ u.is_superuser = true) →
      listOrders db u = db.orders) ∧
    (u.groups.contains "Managers" = false → u.is_superuser = false →
      u.groups.contains "Delivery crew" = true →
      ∀ o : Order, o ∈ listOrders db u ↔ o ∈ db.orders ∧ o.delivery_crew = some u.id) ∧
    (u.groups.contains "Managers" = false → u.is_superuser = false →
      u.groups.contains "Delivery crew" = false →
      ∀ o : Order, o ∈ listOrders db u ↔ o ∈ db.orders ∧ o.userId = u.id) := by
  refine ⟨?_, ?_, ?_⟩
  · intro h
    unfold listOrders
    rcases h with h | h
    · simp at h
      simp [h]
    · simp [h]
  · intro h1 h2 h3 o
    simp at h1 h3
    unfold listOrders
    simp [h1, h2, h3, List.mem_filter]
  · intro h1 h2 h3 o
    simp at h1 h3
    unfold listOrders
    simp [h1, h2, h3, List.mem_filter]

/-- A concrete state for the C4 witness: two orders by users 1 and 2,
assigned to crews 3 and 4. -/
def dbC4 : DB :=
  ⟨[], [], [],
   [⟨1, 1, some 3, false, 100, 50⟩, ⟨2, 2, some 4, false, 200, 50⟩],
   [], [], 1, 3, 1, 1⟩

/-- Witness for C4 at a concrete state: a manager sees both orders; crew
member 3 sees order 1 (assigned to them) and not order 2; customer 1 sees
order 1 (their own) and not order 2, which belongs to customer 2. -/
theorem listOrders_role_scoped_witness :
    listOrders dbC4 ⟨10, false, ["Managers"]⟩ = dbC4.orders ∧
    ((⟨2, 2, some 4, false, 200, 50⟩ : Order) ∈ listOrders dbC4 ⟨3, false, ["Delivery crew"]⟩ ↔
      (⟨2, 2, some 4, false, 200, 50⟩ : Order) ∈ dbC4.orders ∧
        (⟨2, 2, some 4, false, 200, 50⟩ : Order).delivery_crew = some 3) ∧
    ((⟨2, 2, some 4, false, 200, 50⟩ : Order) ∈ listOrders dbC4 ⟨1, false, []⟩ ↔
      (⟨2, 2, some 4, false, 200, 50⟩ : Order) ∈ dbC4.orders ∧
        (⟨2, 2, some 4, false, 200, 50⟩ : Order).userId = 1) :=
  ⟨(listOrders_role_scoped dbC4 ⟨10, false, ["Managers"]⟩).1 (Or.inl (by decide)),
   (listOrders_role_scoped dbC4 ⟨3, false, ["Delivery crew"]⟩).2.1
     (by decide) (by decide) (by decide) ⟨2, 2, some 4, false, 200, 50⟩,
   (listOrders_role_scoped dbC4 ⟨1, false, []⟩).2.2
     (by decide) (by decide) (by decide) ⟨2, 2, some 4, false, 200, 50⟩⟩

/-- When exactly one element of a list satisfies a predicate, `find?`
returns it and it is the only satisfying element. -/
theorem filter_length_one_unique {α : Type} (p : α → Bool) (l : List α)
    (h : (l.filter p).length = 1) :
    ∃ a, l.find? p = some a ∧ p a = true ∧ ∀ x ∈ l, p x = true → x = a := by
  obtain ⟨a, ha⟩ := List.length_eq_one.mp h
  have hmem : ∀ x, x ∈ l ∧ p x = true ↔ x = a := by
    intro x
    rw [← List.mem_filter, ha]
    simp
  have hal : a ∈ l ∧ p a = true := (hmem a).mpr rfl
  have hsome : (l.find? p).isSome := by
    rw [List.find?_isSome]
    exact ⟨a, hal.1, hal.2⟩
  obtain ⟨b, hb⟩ := Option.isSome_iff_exists.mp hsome
  have hba : b = a := (hmem b).mp ⟨List.mem_of_find?_eq_some hb, List.find?_some hb⟩
  subst hba
  exact ⟨b, hb, List.find?_some hb, fun x hx hpx => (hmem x).mp ⟨hx, hpx⟩⟩

/-- C5: for an order present exactly once in the table, toggle-delivered
succeeds and flips the boolean status — with no precondition on its
current value — and toggling a second time restores the table to its
original state. -/
theorem toggleStatus_twice (db : DB) (oid : Nat)
    (h : (db.orders.filter (fun o => o.id == oid)).length = 1) :
    ∃ o0 p q,
      db.orders.find? (fun o => o.id == oid) = some o0 ∧
      toggleStatus db oid = some p ∧
      p.1.orders.find? (fun o => o.id == oid) = some { o0 with status := !o0.status } ∧
      toggleStatus p.1 oid = some q ∧
      q.1.orders = db.orders := by
  obtain ⟨o0, hfind, hp0, huniq⟩ := filter_length_one_unique _ _ h
  have hp0e : o0.id = oid := by simpa using hp0
  set f : Order → Order :=
    fun p => if p.id == oid then { p with status := !o0.status } else p with hf
  set g : Order → Order :=
    fun p => if p.id == oid then { p with status := !(!o0.status) } else p with hg
  have hfc : ∀ x : Order, (f x).id = x.id := by
    intro x
    by_cases hc : x.id = oid <;> simp [hf, hc]
  have h1 : toggleStatus db oid =
      some ({ db with orders := db.orders.map f }, ⟨200, "Status of order changed"⟩) := by
    unfold toggleStatus
    rw [hfind]
  have hfo0 : f o0 = { o0 with status := !o0.status } := by
    simp [hf, hp0e]
  have h2 : (db.orders.map f).find? (fun o => o.id == oid) =
      some { o0 with status := !o0.status } := by
    rw [List.find?_map]
    have hcomp : ((fun o : Order => o.id == oid) ∘ f) = fun o : Order => o.id == oid := by
      funext x
      simp [Function.comp, hfc x]
    rw [hcomp, hfind]
    simp [hfo0]
  have h3 : toggleStatus ({ db with orders := db.orders.map f }) oid =
      some ({ db with orders := (db.orders.map f).map g }, ⟨200, "Status of order changed"⟩) := by
    unfold toggleStatus
    rw [show ({ db with orders := db.orders.map f } : DB).orders = db.orders.map f from rfl, h2]
  have h4 : (db.orders.map f).map g = db.orders := by
    rw [List.map_map]
    have hpt : ∀ x ∈ db.orders, (g ∘ f) x = id x := by
      intro x hx
      by_cases hc : x.id = oid
      · have hxo : x = o0 := huniq x hx (by simpa using hc)
        subst hxo
        show g (f x) = x
        rw [hfo0]
        have hgid : ({ x with status := !x.status } : Order).id = oid := hc
        simp [hg, hgid, Bool.not_not]
        exact hc
      · show g (f x) = x
        simp [hf, hg, hc]
    exact (List.map_congr_left hpt).trans (List.map_id _)
  exact ⟨o0,
    ({ db with orders := db.orders.map f }, ⟨200, "Status of order changed"⟩),
    ({ db with orders := (db.orders.map f).map g }, ⟨200, "Status of order changed"⟩),
    hfind, h1, h2, h3, h4⟩

/-- A concrete state for the C5 witness: one undelivered order with id 1. -/
def dbC5 : DB :=
  ⟨[], [], [], [⟨1, 2, none, false, 100, 50⟩], [], [], 1, 2, 1, 1⟩

/-- Witness for C5 at a concrete state: order 1 occurs exactly once, and
the double toggle restores the order table. -/
theorem toggleStatus_twice_witness :
    (dbC5.orders.filter (fun o => o.id == 1)).length = 1 ∧
    ∃ o0 p q,
      dbC5.orders.find? (fun o => o.id == 1) = some o0 ∧
      toggleStatus dbC5 1 = some p ∧
      p.1.orders.find? (fun o => o.id == 1) = some { o0 with status := !o0.status } ∧
      toggleStatus p.1 1 = some q ∧
      q.1.orders = dbC5.orders :=
  ⟨by decide, toggleStatus_twice dbC5 1 (by decide)⟩

/-- C8: for an order present exactly once and any existing user — with no
requirement at all on the groups of the user — assign-delivery-crew answers
201 and rewrites the order table so that the target order gets
`delivery_crew := crewId` while its other fields, and every order with a
different id, are untouched. -/
theorem assignDeliveryCrew_spec (db : DB) (oid crewId : Nat)
    (ho : (db.orders.filter (fun o => o.id == oid)).length = 1)
    (hu : ∃ u ∈ db.users, u.id = crewId) :
    ∃ o0,
      db.orders.find? (fun o => o.id == oid) = some o0 ∧
      assignDeliveryCrew db oid crewId =
        ({ db with orders := db.orders.map (fun o => if o.id == oid then { o with delivery_crew := some crewId } else o) },
         ⟨201, "was assigned"⟩) ∧
      (assignDeliveryCrew db oid crewId).1.orders.find? (fun o => o.id == oid) =
        some { o0 with delivery_crew := some crewId } ∧
      ∀ o ∈ db.orders, o.id ≠ oid → o ∈ (assignDeliveryCrew db oid crewId).1.orders := by
  obtain ⟨o0, hfind, hp0, _⟩ := filter_length_one_unique _ _ ho
  have hp0e : o0.id = oid := by simpa using hp0
  have husome : (db.users.find? (fun u => u.id == crewId)).isSome := by
    rw [List.find?_isSome]
    obtain ⟨u, hu1, hu2⟩ := hu
    exact ⟨u, hu1, by simpa using hu2⟩
  obtain ⟨crew, hcrew⟩ := Option.isSome_iff_exists.mp husome
  have hcid : crew.id = crewId := by simpa using List.find?_some hcrew
  set f : Order → Order :=
    fun o => if o.id == oid then { o with delivery_crew := some crewId } else o with hfd
  have hmain : assignDeliveryCrew db oid crewId =
      ({ db with orders := db.orders.map f }, ⟨201, "was assigned"⟩) := by
    unfold assignDeliveryCrew
    rw [hfind, hcrew]
    simp only [hcid, hfd]
  have hfc : ∀ x : Order, (f x).id = x.id := by
    intro x
    by_cases hc : x.id = oid <;> simp [hfd, hc]
  have hfind2 : (db.orders.map f).find? (fun o => o.id == oid) =
      some { o0 with delivery_crew := some crewId } := by
    rw [List.find?_map]
    have hcomp : ((fun o : Order => o.id == oid) ∘ f) = fun o : Order => o.id == oid := by
      funext x
      simp [Function.comp, hfc x]
    rw [hcomp, hfind]
    simp [hfd, hp0e]
  refine ⟨o0, hfind, hmain, ?_, ?_⟩
  · rw [hmain]
    exact hfind2
  · intro o hmem hne
    rw [hmain]
    have hfo : f o = o := by simp [hfd, hne]
    exact hfo ▸ List.mem_map_of_mem f hmem

/-- A concrete state for the C8 witness: two orders and a user (id 9) who
belongs to no group at all, in particular not to "Delivery crew". -/
def dbC8 : DB :=
  ⟨[⟨9, false, []⟩], [], [],
   [⟨1, 2, none, false, 100, 50⟩, ⟨2, 3, some 4, true, 200, 51⟩],
   [], [], 1, 3, 1, 1⟩

/-- Witness for C8 at a concrete state: assigning the group-less user 9
to order 1 succeeds, updates only the `delivery_crew` of that order, and
leaves order 2 in the table. -/
theorem assignDeliveryCrew_spec_witness :
    (dbC8.orders.filter (fun o => o.id == 1)).length = 1 ∧
    (∃ u ∈ dbC8.users, u.id = 9) ∧
    ∃ o0,
      dbC8.orders.find? (fun o => o.id == 1) = some o0 ∧
      assignDeliveryCrew dbC8 1 9 =
        ({ dbC8 with orders := dbC8.orders.map (fun o => if o.id == 1 then { o with delivery_crew := some 9 } else o) },
         ⟨201, "was assigned"⟩) ∧
      (assignDeliveryCrew dbC8 1 9).1.orders.find? (fun o => o.id == 1) =
        some { o0 with delivery_crew := some 9 } ∧
      ∀ o ∈ dbC8.orders, o.id ≠ 1 → o ∈ (assignDeliveryCrew dbC8 1 9).1.orders :=
  ⟨by decide, ⟨⟨9, false, []⟩, by decide, rfl⟩,
   assignDeliveryCrew_spec dbC8 1 9 (by decide) ⟨⟨9, false, []⟩, by decide, rfl⟩⟩

/-- C9: for an existing order, delete-order succeeds; afterwards the
order table holds exactly the orders with a different id and the order
item table exactly the order items referencing a different order
(cascade) — all of them unchanged members of the old tables. -/
theorem deleteOrder_spec (db : DB) (oid : Nat)
    (h : ∃ o ∈ db.orders, o.id = oid) :
    ∃ p, deleteOrder db oid = some p ∧
      p.2 = ⟨200, "Order was deleted"⟩ ∧
      (∀ o : Order, o ∈ p.1.orders ↔ o ∈ db.orders ∧ o.id ≠ oid) ∧
      (∀ i : OrderItem, i ∈ p.1.orderItems ↔ i ∈ db.orderItems ∧ i.orderId ≠ oid) := by
  have hsome : (db.orders.find? (fun o => o.id == oid)).isSome := by
    rw [List.find?_isSome]
    obtain ⟨o, ho1, ho2⟩ := h
    exact ⟨o, ho1, by simpa using ho2⟩
  obtain ⟨o0, hfind⟩ := Option.isSome_iff_exists.mp hsome
  have hmain : deleteOrder db oid =
      some ({ db with
                orders := db.orders.filter (fun o => !(o.id == oid)),
                orderItems := db.orderItems.filter (fun i => !(i.orderId == oid)) },
            ⟨200, "Order was deleted"⟩) := by
    unfold deleteOrder
    rw [hfind]
  refine ⟨_, hmain, rfl, ?_, ?_⟩
  · intro o
    simp [List.mem_filter]
  · intro i
    simp [List.mem_filter]

/-- A concrete state for the C9 witness: two orders; order items 1 and 2
reference order 1, order item 3 references order 2. -/
def dbC9 : DB :=
  ⟨[], [], [],
   [⟨1, 2, none, false, 100, 50⟩, ⟨2, 3, some 4, true, 200, 51⟩],
   [⟨1, 1, 10, 2⟩, ⟨2, 1, 11, 1⟩, ⟨3, 2, 10, 5⟩],
   [], 1, 3, 4, 1⟩

/-- Witness for C9 at a concrete state: deleting order 1 removes it and
both of its order items, and keeps order 2 and its order item. -/
theorem deleteOrder_spec_witness :
    (∃ o ∈ dbC9.orders, o.id = 1) ∧
    ∃ p, deleteOrder dbC9 1 = some p ∧
      p.2 = ⟨200, "Order was deleted"⟩ ∧
      (∀ o : Order, o ∈ p.1.orders ↔ o ∈ dbC9.orders ∧ o.id ≠ 1) ∧
      (∀ i : OrderItem, i ∈ p.1.orderItems ↔ i ∈ dbC9.orderItems ∧ i.orderId ≠ 1) :=
  ⟨⟨⟨1, 2, none, false, 100, 50⟩, by decide, rfl⟩,
   deleteOrder_spec dbC9 1 ⟨⟨1, 2, none, false, 100, 50⟩, by decide, rfl⟩⟩

/-- Specification-side description of the order lines the place-order
loop creates: one OrderItem per cart row, ids counting up from `startId`,
the quantity copied from the cart row and no price copied (OrderItem has
no price fields). -/
def mkLines (startId oid : Nat) : List Cart → List OrderItem
  | [] => []
  | c :: rest => ⟨startId, oid, c.menuitemId, c.quantity⟩ :: mkLines (startId + 1) oid rest

/-- `mkLines` yields exactly one order line per cart row. -/
theorem mkLines_length (oid startId : Nat) (rows : List Cart) :
    (mkLines startId oid rows).length = rows.length := by
  induction rows generalizing startId with
  | nil => rfl
  | cons c rest ih => simp [mkLines, ih]

/-- When the menu item of every cart row is present, the line-creating loop
succeeds and only appends the `mkLines` order lines, bumping the order
item counter. -/
theorem createOrderLines_ok (oid : Nat) (rows : List Cart) : ∀ db : DB,
    (∀ c ∈ rows, (db.menuitems.find? (fun m => m.id == c.menuitemId)).isSome) →
    createOrderLines oid db rows =
      ({ db with
           orderItems := db.orderItems ++ mkLines db.nextOrderItemId oid rows,
           nextOrderItemId := db.nextOrderItemId + rows.length }, true) := by
  induction rows with
  | nil =>
    intro db _
    simp [createOrderLines, mkLines]
  | cons c rest ih =>
    intro db hall
    have hc := hall c (List.mem_cons_self c rest)
    obtain ⟨m, hm⟩ := Option.isSome_iff_exists.mp hc
    have hmid : m.id = c.menuitemId := by simpa using List.find?_some hm
    have hall' : ∀ c' ∈ rest,
        (({ db with
              orderItems := db.orderItems ++ [⟨db.nextOrderItemId, oid, m.id, c.quantity⟩],
              nextOrderItemId := db.nextOrderItemId + 1 } : DB).menuitems.find?
          (fun mi => mi.id == c'.menuitemId)).isSome := by
      intro c' hc'
      exact hall c' (List.mem_cons_of_mem _ hc')
    unfold createOrderLines
    simp only [hm]
    rw [ih _ hall']
    rw [hmid]
    simp [mkLines, Nat.add_assoc, Nat.add_comm 1 rest.length]

/-- C1: for a user with a non-empty cart whose menu items all exist,
place-order answers 201 and the new state appends exactly one Order row
(status false = not-delivered, date = today, total = the sum of the cart
price fields of the rows), appends exactly one OrderItem per cart row via
`mkLines` (quantity copied, no price copied — OrderItem has none), and
leaves the cart of the user with zero rows. -/
theorem placeOrder_spec (db : DB) (uid today : Nat)
    (hne : db.carts.filter (fun c => c.userId == uid) ≠ [])
    (hall : ∀ c ∈ db.carts.filter (fun c => c.userId == uid),
      (db.menuitems.find? (fun m => m.id == c.menuitemId)).isSome) :
    placeOrder db uid today =
      ({ db with
           orders := db.orders ++ [⟨db.nextOrderId, uid, none, false,
             ((db.carts.filter (fun c => c.userId == uid)).map (fun c => c.price)).sum, today⟩],
           nextOrderId := db.nextOrderId + 1,
           orderItems := db.orderItems ++
             mkLines db.nextOrderItemId db.nextOrderId (db.carts.filter (fun c => c.userId == uid)),
           nextOrderItemId := db.nextOrderItemId +
             (db.carts.filter (fun c => c.userId == uid)).length,
           carts := db.carts.filter (fun c => !(c.userId == uid)) },
       ⟨201, "Your order has been placed! Your order number is " ++ toString db.nextOrderId⟩) ∧
    (placeOrder db uid today).1.orderItems.length =
      db.orderItems.length + (db.carts.filter (fun c => c.userId == uid)).length ∧
    (placeOrder db uid today).1.carts.filter (fun c => c.userId == uid) = [] := by
  have hcond : ((db.carts.filter (fun c => c.userId == uid)).length == 0) = false := by
    simp only [beq_eq_false_iff_ne, ne_eq]
    intro hl
    exact hne (List.eq_nil_of_length_eq_zero hl)
  have hlines := createOrderLines_ok db.nextOrderId
    (db.carts.filter (fun c => c.userId == uid))
    ({ db with
         orders := db.orders ++ [⟨db.nextOrderId, uid, none, false,
           ((db.carts.filter (fun c => c.userId == uid)).map (fun c => c.price)).sum, today⟩],
         nextOrderId := db.nextOrderId + 1 })
    (by intro c hc; exact hall c hc)
  have hmain : placeOrder db uid today =
      ({ db with
           orders := db.orders ++ [⟨db.nextOrderId, uid, none, false,
             ((db.carts.filter (fun c => c.userId == uid)).map (fun c => c.price)).sum, today⟩],
           nextOrderId := db.nextOrderId + 1,
           orderItems := db.orderItems ++
             mkLines db.nextOrderItemId db.nextOrderId (db.carts.filter (fun c => c.userId == uid)),
           nextOrderItemId := db.nextOrderItemId +
             (db.carts.filter (fun c => c.userId == uid)).length,
           carts := db.carts.filter (fun c => !(c.userId == uid)) },
       ⟨201, "Your order has been placed! Your order number is " ++ toString db.nextOrderId⟩) := by
    unfold placeOrder
    simp only [hcond, Bool.false_eq_true, if_false, hlines]
  refine ⟨hmain, ?_, ?_⟩
  · rw [hmain]
    simp [mkLines_length]
  · rw [hmain]
    simp only [List.filter_filter]
    rw [List.filter_eq_nil_iff]
    intro c _
    by_cases hc : c.userId = uid <;> simp [hc]

/-- A concrete state for the C1 witness, the example of the spec itself: user 7
has two cart rows priced 10.00 and 5.50 (1000 and 550 cents). -/
def dbC1 : DB :=
  ⟨[], [⟨1, "Pasta", 1000, false, 1⟩, ⟨2, "Cake", 550, false, 1⟩],
   [⟨1, 7, 1, 1, 1000, 1000⟩, ⟨2, 7, 2, 1, 550, 550⟩],
   [], [], [], 3, 1, 1, 1⟩

/-- Witness for C1 at the example from the spec: Order.total = 15.50 (1550
cents), status not-delivered, date today, exactly 2 OrderItem rows with
the quantities copied, and the cart empty afterwards. -/
theorem placeOrder_spec_witness :
    dbC1.carts.filter (fun c => c.userId == 7) ≠ [] ∧
    (∀ c ∈ dbC1.carts.filter (fun c => c.userId == 7),
      (dbC1.menuitems.find? (fun m => m.id == c.menuitemId)).isSome) ∧
    (placeOrder dbC1 7 100).1.orders = [⟨1, 7, none, false, 1550, 100⟩] ∧
    (placeOrder dbC1 7 100).1.orderItems = [⟨1, 1, 1, 1⟩, ⟨2, 1, 2, 1⟩] ∧
    (placeOrder dbC1 7 100).1.carts = [] ∧
    (placeOrder dbC1 7 100).2 =
      ⟨201, "Your order has been placed! Your order number is 1"⟩ := by
  have h := placeOrder_spec dbC1 7 100 (by decide) (by decide)
  refine ⟨by decide, by decide, ?_, ?_, ?_, ?_⟩ <;> rw [h.1] <;> decide

end LittleLemon
